import Mathlib

/-!
Shallow embedding of the MazinLab/jpe host-side driver for the JPE CPSC1
motion controller, together with theorems checking the natural-language
specification against the code.

The embedding follows the refactored generation of the source tree, which
is the one the public symbols of the crate live in:

* `src/transport/connection.rs` — `Connection::parse_frame`,
  `Connection::read_chunks`, `Connection::transaction_handler`;
* `src/base/context.rs` — `BaseContext` and its command methods;
* `src/config.rs` — `Module`, `Slot`, `ControllerOpMode`, bounds constants;
* `src/transport.rs` — shared `Frame` / `Command` / scope types, plus a
  superseded copy of `parse_frame` kept here as `parseFrameLegacy`.

Rust `String`s are modelled as Lean `String`s (the protocol is ASCII, so
the UTF-8 decoding step `std::str::from_utf8` is the identity on the
inputs considered here).  Wall-clock time in the chunked read loop is
modelled by tagging each read event with the elapsed milliseconds observed
at the loop-guard check that precedes it.  The byte channel behind the
`Transport` trait is modelled as a script of raw reply buffers plus a log
of the payloads written to the wire, so that "number of transactions"
claims become statements about the length of that log.
-/

namespace Jpe

/-- Type `Error` from `src/lib.rs` (payload-free variants stand for the opaque
I/O, UTF-8 and parse error payloads). -/
inductive Error where
  | Io : Error
  | DeviceNotFound : Error
  | InvalidParams : String → Error
  | InvalidResponse : String → Error
  | Other : String → Error
  | BufOverflow : Nat → Nat → Error
  | Bound : String → Error
  | Utf8 : Error
  | DeviceError : String → Error
  | ParseIntError : Error
  | ParseFloatError : Error
  | AddrParseError : Error
deriving DecidableEq, Repr

/-- Type `Frame` from `src/transport.rs`: a framed response received from the
controller. -/
inductive Frame where
  | Error : String → Frame
  | CrDelimited : List String → Frame
  | CommaDelimited : List String → Frame
deriving DecidableEq, Repr

instance {ε α : Type} [DecidableEq ε] [DecidableEq α] : DecidableEq (Except ε α) := fun a b =>
  match a, b with
  | .ok x, .ok y => if h : x = y then .isTrue (by rw [h]) else .isFalse (by simp [h])
  | .error x, .error y => if h : x = y then .isTrue (by rw [h]) else .isFalse (by simp [h])
  | .ok _, .error _ => .isFalse (by simp)
  | .error _, .ok _ => .isFalse (by simp)

/-- Constant `TERMINATOR` from `src/transport.rs`: the fixed 2-byte frame
terminator `"\r\n"`. -/
def TERMINATOR : String := "\r\n"

/-- Constant `MAX_FRAME_SIZE` from `src/transport.rs`. -/
def MAX_FRAME_SIZE : Nat := 4096

/-- Constant `READ_TIMEOUT` from `src/transport.rs`, in milliseconds. -/
def READ_TIMEOUT : Nat := 500

/-- Rust `str::strip_suffix(TERMINATOR)` on the character list of a
string: strips a trailing `['\r', '\n']` when present. -/
def stripTermL (l : List Char) : Option (List Char) :=
  match l.reverse with
  | a :: b :: rest => if a = '\n' ∧ b = '\r' then some rest.reverse else none
  | _ => none

/-- Rust `str::strip_suffix(TERMINATOR)` on strings. -/
def stripTerm (s : String) : Option String :=
  (stripTermL s.data).map String.mk

/-- Rust `str::starts_with(p)` (byte-wise prefix test; equivalent to a
character-wise test on ASCII). -/
def strStartsWith (s p : String) : Bool :=
  p.data.isPrefixOf s.data

/-- Rust `[u8]::ends_with` / `str::ends_with` (byte-wise suffix test;
equivalent to a character-wise test on ASCII). -/
def strEndsWith (s t : String) : Bool :=
  t.data.isSuffixOf s.data

/-- Rust `msg.chars().filter(|c| *c == '\r').count()`. -/
def countCr (s : String) : Nat :=
  (s.data.filter (fun c => c = '\r')).length

/-- Rust `str::split(c)` on character lists: yields the (possibly empty)
pieces between occurrences of `c`; the empty input yields `[[]]`, exactly
as `"".split(c)` yields `[""]` in Rust. -/
def splitOnCharL (c : Char) : List Char → List (List Char)
  | [] => [[]]
  | x :: xs =>
    match splitOnCharL c xs with
    | [] => [[]]
    | h :: t => if x = c then [] :: h :: t else (x :: h) :: t

/-- Rust `str::split(c)` on strings, with pieces collected as strings. -/
def splitOnChar (c : Char) (s : String) : List String :=
  (splitOnCharL c s.data).map String.mk

/-- Function `Connection::parse_frame` from `src/transport/connection.rs`
(lines 28–54): strip the terminator (else `InvalidResponse`), classify a
leading `"Error"` as an error frame, otherwise count the carriage returns
remaining after the strip — zero means comma-delimited, one or more means
CR-delimited (the documented device quirk). -/
def parseFrame (buf : String) : Except Error Frame :=
  match stripTerm buf with
  | none => .error (.InvalidResponse "Terminator not found")
  | some msg =>
    if strStartsWith msg "Error" then .ok (.Error msg)
    else
      match countCr msg with
      | 0 => .ok (.CommaDelimited (splitOnChar ',' msg))
      | _ + 1 => .ok (.CrDelimited (splitOnChar '\r' msg))

/-- Function `Connection::parse_frame` from `src/transport.rs` (lines 112–139), the
superseded copy: identical up to the carriage-return thresholds, which
are one for comma-delimited and two or more for CR-delimited, with zero a
malformed-response error. -/
def parseFrameLegacy (buf : String) : Except Error Frame :=
  match stripTerm buf with
  | none => .error (.InvalidResponse "Terminator not found")
  | some msg =>
    if strStartsWith msg "Error" then .ok (.Error msg)
    else
      match countCr msg with
      | 1 => .ok (.CommaDelimited (splitOnChar ',' msg))
      | _ + 2 => .ok (.CrDelimited (splitOnChar '\r' msg))
      | 0 => .error (.InvalidResponse ("Malformed Response: " ++ msg))

/-- The outcome of one `self.transport.read(&mut chunk_buf)` call inside
`Connection::read_chunks`: a successful read delivering the given bytes
(`ok ""` is the `Ok(0)` end-of-stream case), a would-block or timed-out
poll artifact, or a fatal I/O error. -/
inductive ChunkRead where
  | ok : String → ChunkRead
  | wouldBlock : ChunkRead
  | timedOut : ChunkRead
  | ioErr : ChunkRead
deriving DecidableEq, Repr

/-- One iteration's worth of channel behaviour: `t` is the elapsed time in
milliseconds observed by `timer.elapsed()` at the loop-guard check that
precedes the read, and `r` is what the read then returns. -/
structure TimedRead where
  t : Nat
  r : ChunkRead
deriving DecidableEq, Repr

/-- The loop of `Connection::read_chunks` from
`src/transport/connection.rs` (lines 57–93), with the mutable
`self.read_buf` and `total_b_read` threaded explicitly and the channel
replaced by the script of read events.  The guard is
`timer.elapsed() < READ_TIMEOUT && !self.read_buf.ends_with(TERMINATOR)`;
a `Ok(0)` read breaks out, an `Ok(n)` read appends exactly the `n` bytes
read (`put_slice(&chunk_buf[..n_read])`) after checking the running total
against `MAX_FRAME_SIZE`, would-block and timed-out errors continue, and
any other I/O error aborts.  An exhausted script stands for the deadline
expiring with no further data. -/
def readChunksGo (buf : String) (total : Nat) : List TimedRead → Except Error String
  | [] => .ok buf
  | ev :: rest =>
    if ev.t < READ_TIMEOUT ∧ ¬ strEndsWith buf TERMINATOR then
      match ev.r with
      | .ok data =>
        if data.length = 0 then .ok buf
        else
          if total + data.length > MAX_FRAME_SIZE then
            .error (.BufOverflow MAX_FRAME_SIZE (total + data.length))
          else readChunksGo (buf ++ data) (total + data.length) rest
      | .wouldBlock => readChunksGo buf total rest
      | .timedOut => readChunksGo buf total rest
      | .ioErr => .error .Io
    else .ok buf

/-- Function `Connection::read_chunks` for one transaction: `self.read_buf.clear()`
runs first, so every transaction's accumulation starts from an empty
buffer regardless of what a previous transaction left behind. -/
def readChunks (events : List TimedRead) : Except Error String :=
  readChunksGo "" 0 events

/-- Type `Module` from `src/config.rs` (lines 115–121).  The enum there has
exactly the five variants `Cadm`, `Rsm`, `Oem`, `Psm`, `Edm`; the extra
`Empty` constructor here represents the `Module::Empty` value that
`BaseContext::new` (`src/base/context.rs` line 31) fills the six-slot
table with — a variant the enum in `src/config.rs` does not declare,
which is part of what claim C4 turns on. -/
inductive Module where
  | Cadm : Module
  | Rsm : Module
  | Oem : Module
  | Psm : Module
  | Edm : Module
  | Empty : Module
deriving DecidableEq, Repr

/-- The `derive_more::Display` name of a `Module` variant. -/
def Module.name : Module → String
  | .Cadm => "Cadm"
  | .Rsm => "Rsm"
  | .Oem => "Oem"
  | .Psm => "Psm"
  | .Edm => "Edm"
  | .Empty => "Empty"

/-- Rust `u8::to_ascii_lowercase` on one character. -/
def asciiLower (c : Char) : Char :=
  if 'A' ≤ c ∧ c ≤ 'Z' then Char.ofNat (c.toNat + 32) else c

/-- Rust `str::to_ascii_lowercase`. -/
def strLower (s : String) : String :=
  String.mk (s.data.map asciiLower)

/-- Function `Module::from_str` from `src/config.rs` (lines 129–144): lowercase the
input, then match on the known name prefixes; anything else — including
the `"-"` the device reports for an empty slot — is an
`InvalidResponse("Unknown module: …")` error. -/
def Module.fromStr (s : String) : Except Error Module :=
  let t := strLower s
  if strStartsWith t "cadm" then .ok .Cadm
  else if strStartsWith t "rsm" then .ok .Rsm
  else if strStartsWith t "oem" then .ok .Oem
  else if strStartsWith t "psm" then .ok .Psm
  else if strStartsWith t "edm" then .ok .Edm
  else .error (.InvalidResponse ("Unknown module: " ++ t))

/-- Type `Slot` from `src/config.rs`: one of the six fixed module bays. -/
inductive Slot where
  | One : Slot
  | Two : Slot
  | Three : Slot
  | Four : Slot
  | Five : Slot
  | Six : Slot
deriving DecidableEq, Repr

/-- Conversion `impl From<Slot> for u8` from `src/config.rs`: the 1-based wire
number. -/
def Slot.toU8 : Slot → Nat
  | .One => 1
  | .Two => 2
  | .Three => 3
  | .Four => 4
  | .Five => 5
  | .Six => 6

/-- The 0-based module-table index a slot maps to (`u8::from(slot) - 1`,
and the explicit `self.modules[0]`…`self.modules[5]` arms of
`BaseContext::check_command`). -/
def Slot.idx (s : Slot) : Nat := s.toU8 - 1

/-- Formatting `impl Display for Slot` from `src/config.rs`: the wire digit. -/
def Slot.disp : Slot → String
  | .One => "1"
  | .Two => "2"
  | .Three => "3"
  | .Four => "4"
  | .Five => "5"
  | .Six => "6"

/-- Type `ControllerOpMode` from `src/config.rs`. -/
inductive ControllerOpMode where
  | Basedrive : ControllerOpMode
  | Servodrive : ControllerOpMode
  | Flexdrive : ControllerOpMode
deriving DecidableEq, Repr

/-- The `derive_more::Display` name of a `ControllerOpMode` variant. -/
def ControllerOpMode.name : ControllerOpMode → String
  | .Basedrive => "Basedrive"
  | .Servodrive => "Servodrive"
  | .Flexdrive => "Flexdrive"

/-- Type `ModuleScope` from `src/transport.rs`. -/
inductive ModuleScope where
  | Any : ModuleScope
  | Only : List Module → ModuleScope
deriving DecidableEq, Repr

/-- Type `ModeScope` from `src/transport.rs`. -/
inductive ModeScope where
  | Any : ModeScope
  | Only : List ControllerOpMode → ModeScope
deriving DecidableEq, Repr

/-- Type `Command` from `src/transport.rs`. -/
structure Command where
  allowedMod : ModuleScope
  allowedMode : ModeScope
  payload : String
deriving DecidableEq, Repr

/-- Constructor `Command::new` from `src/transport.rs` (lines 50–58): appends the
terminator to the payload. -/
def Command.new (allowedMod : ModuleScope) (allowedMode : ModeScope) (payload : String) :
    Command :=
  ⟨allowedMod, allowedMode, payload ++ TERMINATOR⟩

/-- Rust `char::is_whitespace`, restricted to the ASCII whitespace that
can occur in command payloads. -/
def isWs (c : Char) : Bool :=
  c = ' ' ∨ c = '\t' ∨ c = '\n' ∨ c = '\r'

/-- Formatting `impl Display for Command` from `src/transport.rs` (lines 59–64):
`payload.split_whitespace().next().unwrap_or("Unknown")`, the command
mnemonic. -/
def Command.disp (cmd : Command) : String :=
  match (cmd.payload.data.dropWhile isWs).takeWhile (fun c => ¬ isWs c) with
  | [] => "Unknown"
  | l => String.mk l

/-- The state of `BaseContext` from `src/base/context.rs` (lines 10–22),
without the type-erased connection handle (modelled separately as `Chan`):
current operating mode, cached firmware version (empty until the first
successful `/VER`), the six-slot module table (`[Module; 6]`, modelled as
a list that is kept at length 6 by every operation), and the cached
supported-stage list. -/
structure BaseContext where
  opMode : ControllerOpMode
  fwVers : String
  modules : List Module
  supportedStages : List String
deriving DecidableEq, Repr

/-- Constructor `BaseContext::new` (`src/base/context.rs` lines 25–34): Basedrive,
empty firmware cache, all six slots `Module::Empty`, empty stage cache. -/
def BaseContext.init : BaseContext :=
  ⟨.Basedrive, "", [.Empty, .Empty, .Empty, .Empty, .Empty, .Empty], []⟩

/-- The mock byte channel behind the `Transport` trait object: `replies`
is the script of raw response buffers the device will answer with, one
per transaction, and `sent` is the log of payloads written to the wire.
`Transport::transact` (implemented by `Connection::transaction_handler`,
`src/transport/connection.rs` lines 96–106) clears the stale buffers,
writes the payload, reads the reply bytes and hands them to
`Connection::parse_frame`. -/
structure Chan where
  replies : List String
  sent : List String
deriving DecidableEq, Repr

/-- One transaction on the mock channel: log the payload, consume the
next scripted reply and parse it.  An exhausted script stands for a read
deadline that expires with no data, which `parse_frame` then reports as a
missing terminator — exactly `parse_frame` applied to the empty buffer. -/
def Chan.transact (ch : Chan) (payload : String) : Except Error Frame × Chan :=
  match ch.replies with
  | [] => (parseFrame "", ⟨[], ch.sent ++ [payload]⟩)
  | r :: rest => (parseFrame r, ⟨rest, ch.sent ++ [payload]⟩)

/-- A controller context together with its connection: the `BaseContext`
fields and the `conn: Box<dyn Transport>` it owns. -/
structure Ctx where
  bc : BaseContext
  ch : Chan
deriving DecidableEq, Repr

/-- Whether the command's mode scope admits the current mode
(`src/base/context.rs` lines 38–41). -/
def modeAllowed (sc : ModeScope) (m : ControllerOpMode) : Bool :=
  match sc with
  | .Any => true
  | .Only modes => modes.contains m

/-- Method `BaseContext::check_command` from `src/base/context.rs` (lines
37–70): the mode scope is checked first, then the module scope against
the module recorded at the supplied slot; a restrictive module scope with
no slot supplied is the defensive trivially-valid case.  The error
messages are the two `InvalidParams` format strings of the source. -/
def checkCommand (bc : BaseContext) (cmd : Command) (slot : Option Slot) :
    Except Error Unit :=
  if modeAllowed cmd.allowedMode bc.opMode then
    match cmd.allowedMod, slot with
    | .Any, _ => .ok ()
    | .Only mods, some s =>
      let cur := bc.modules.getD s.idx .Empty
      if mods.contains cur then .ok ()
      else
        .error (.InvalidParams ("Unsupported command: '" ++ cmd.disp ++ "', for module: '"
          ++ cur.name ++ "'"))
    | .Only _, none => .ok ()
  else
    .error (.InvalidParams ("Unsupported command: '" ++ cmd.disp ++ "', in mode: '"
      ++ bc.opMode.name ++ "'"))

/-- Method `BaseContext::handle_command` from `src/base/context.rs` (lines
81–110): validate via `check_command` (returning before any wire traffic
on failure), transact, turn an `Error` frame into `DeviceError`, and
check a delimited frame's length against `n_resp_vals` when one is
supplied (`None` accepts any length). -/
def handleCommand (st : Ctx) (cmd : Command) (nRespVals : Option Nat) (slot : Option Slot) :
    Except Error (List String) × Ctx :=
  match checkCommand st.bc cmd slot with
  | .error e => (.error e, st)
  | .ok _ =>
    let tr := st.ch.transact cmd.payload
    match tr.1 with
    | .error e => (.error e, ⟨st.bc, tr.2⟩)
    | .ok (.Error s) => (.error (.DeviceError s), ⟨st.bc, tr.2⟩)
    | .ok (.CrDelimited v) | .ok (.CommaDelimited v) =>
      match nRespVals with
      | some n =>
        if v.length ≠ n then
          (.error (.InvalidResponse ("Expected " ++ toString n ++ " values, got "
            ++ toString v.length)), ⟨st.bc, tr.2⟩)
        else (.ok v, ⟨st.bc, tr.2⟩)
      | none => (.ok v, ⟨st.bc, tr.2⟩)

/-- Method `BaseContext::get_fw_version` from `src/base/context.rs` (lines
156–168): return the cached version when it is non-empty; otherwise issue
`/VER`, expect exactly one value, cache it and return it (`v[0]` is safe
by the length check; modelled with `headD`). -/
def getFwVersion (st : Ctx) : Except Error String × Ctx :=
  if st.bc.fwVers.isEmpty then
    let cmd := Command.new .Any .Any "/VER"
    match handleCommand st cmd (some 1) none with
    | (.error e, st') => (.error e, st')
    | (.ok v, st') =>
      let x := v.headD ""
      (.ok x, ⟨{ st'.bc with fwVers := x }, st'.ch⟩)
  else (.ok st.bc.fwVers, st)

/-- Rust `collect::<BaseResult<Vec<Module>>>()` over
`v.iter().map(Module::from_str)`: fail-fast left-to-right traversal. -/
def collectModules : List String → Except Error (List Module)
  | [] => .ok []
  | s :: rest =>
    match Module.fromStr s with
    | .error e => .error e
    | .ok m =>
      match collectModules rest with
      | .error e => .error e
      | .ok ms => .ok (m :: ms)

/-- The `enumerate().for_each(|(idx, new_mod)| self.modules[idx] = …)`
update of the module table, writing the parsed modules into indices 0, 1,
2, … in order (`List.set` is a no-op out of bounds; with both lists at
length 6 every write lands). -/
def writeModulesFrom (cur : List Module) (i : Nat) : List Module → List Module
  | [] => cur
  | m :: rest => writeModulesFrom (cur.set i m) (i + 1) rest

/-- Method `BaseContext::get_module_list` from `src/base/context.rs` (lines
176–190): issue `/MODLIST`, expect exactly six values, parse every entry
with `Module::from_str` (the `?` after `collect` returns before any slot
is touched), then overwrite the six-slot table and return the raw
strings. -/
def getModuleList (st : Ctx) : Except Error (List String) × Ctx :=
  let cmd := Command.new .Any .Any "/MODLIST"
  match handleCommand st cmd (some 6) none with
  | (.error e, st') => (.error e, st')
  | (.ok v, st') =>
    match collectModules v with
    | .error e => (.error e, st')
    | .ok mods =>
      (.ok v, ⟨{ st'.bc with modules := writeModulesFrom st'.bc.modules 0 mods }, st'.ch⟩)

/-- Method `BaseContext::get_supported_stages` from `src/base/context.rs` (lines
192–195): issue `/STAGES` with no expected-length check; note that this
accessor itself consults no cache. -/
def getSupportedStages (st : Ctx) : Except Error (List String) × Ctx :=
  handleCommand st (Command.new .Any .Any "/STAGES") none none

/-- Method `BaseContext::check_stage` from `src/base/context.rs` (lines 72–77):
when the supported-stage cache is empty, populate it via
`get_supported_stages` (propagating its error), then answer membership
from the cache. -/
def checkStage (st : Ctx) (stage : String) : Except Error Bool × Ctx :=
  if st.bc.supportedStages.isEmpty then
    match getSupportedStages st with
    | (.error e, st') => (.error e, st')
    | (.ok v, st') =>
      (.ok (v.any (fun s => s == stage)), ⟨{ st'.bc with supportedStages := v }, st'.ch⟩)
  else (.ok (st.bc.supportedStages.any (fun s => s == stage)), st)

/-- Method `BaseContext::stop_stage` from `src/base/context.rs` (lines 318–330):
`STP <slot>`, CADM-only, legal in Basedrive or Flexdrive; the operating
mode is set back to Basedrive only after the `?` on `handle_command`
succeeds. -/
def stopStage (st : Ctx) (slot : Slot) : Except Error String × Ctx :=
  let cmd := Command.new (.Only [.Cadm]) (.Only [.Basedrive, .Flexdrive])
    ("STP " ++ slot.disp)
  match handleCommand st cmd (some 1) (some slot) with
  | (.error e, st') => (.error e, st')
  | (.ok v, st') => (.ok (v.headD ""), ⟨{ st'.bc with opMode := .Basedrive }, st'.ch⟩)

/-- Constant `SCANNER_LEVEL_BOUNDS` from `src/config.rs`: `0..=1023`. -/
def SCANNER_LEVEL_BOUNDS_hi : Nat := 1023

/-- Method `BaseContext::enable_scan_mode` from `src/base/context.rs` (lines
335–352): bounds-check the level (early `Bound` return), then — before
dispatching — set `self.op_mode = Basedrive`, then issue
`SDC <slot> <level>` (CADM-only, Basedrive-only).  The mode write
precedes `handle_command`, so it persists even when the exchange fails. -/
def enableScanMode (st : Ctx) (slot : Slot) (level : Nat) : Except Error String × Ctx :=
  if ¬ level ≤ SCANNER_LEVEL_BOUNDS_hi then
    (.error (.Bound ("Level out of range, 0-1023, got " ++ toString level)), st)
  else
    let cmd := Command.new (.Only [.Cadm]) (.Only [.Basedrive])
      ("SDC " ++ slot.disp ++ " " ++ toString level)
    let st1 : Ctx := ⟨{ st.bc with opMode := .Basedrive }, st.ch⟩
    match handleCommand st1 cmd (some 1) (some slot) with
    | (.error e, st') => (.error e, st')
    | (.ok v, st') => (.ok (v.headD ""), st')

/-- Method `BaseContext::disable_servodrive` from `src/base/context.rs` (lines
630–639): `FBXT`, Servodrive-only; the mode is set back to Basedrive only
after `handle_command` succeeds. -/
def disableServodrive (st : Ctx) : Except Error String × Ctx :=
  let cmd := Command.new .Any (.Only [.Servodrive]) "FBXT"
  match handleCommand st cmd (some 1) none with
  | (.error e, st') => (.error e, st')
  | (.ok v, st') => (.ok (v.headD ""), ⟨{ st'.bc with opMode := .Basedrive }, st'.ch⟩)

/-- Method `BaseContext::servodrive_em_stop` from `src/base/context.rs` (lines
641–650): `FBES`, Servodrive-only; the mode is set back to Basedrive only
after `handle_command` succeeds. -/
def servodriveEmStop (st : Ctx) : Except Error String × Ctx :=
  let cmd := Command.new .Any (.Only [.Servodrive]) "FBES"
  match handleCommand st cmd (some 1) none with
  | (.error e, st') => (.error e, st')
  | (.ok v, st') => (.ok (v.headD ""), ⟨{ st'.bc with opMode := .Basedrive }, st'.ch⟩)

/-- Method `BaseContext::set_excitation_ds` from `src/base/context.rs` (lines
534–548): the duty cycle (a `u8` percentage) must be 0 or in `10..=100`,
else an early `Bound` return naming the legal range and the value; then
`EXS <slot> <duty>` (RSM-only, Basedrive-only). -/
def setExcitationDs (st : Ctx) (slot : Slot) (duty : Nat) : Except Error String × Ctx :=
  if ¬ (duty = 0 ∨ (10 ≤ duty ∧ duty ≤ 100)) then
    (.error (.Bound ("Duty cycle out of range: 0, 10-100. Got " ++ toString duty)), st)
  else
    let cmd := Command.new (.Only [.Rsm]) (.Only [.Basedrive])
      ("EXS " ++ slot.disp ++ " " ++ toString duty)
    match handleCommand st cmd (some 1) (some slot) with
    | (.error e, st') => (.error e, st')
    | (.ok v, st') => (.ok (v.headD ""), st')

/-- A fresh context whose device is scripted to answer the `/VER` query
with `"v8.0.20220221\r\n"`. -/
def fwCtx : Ctx := ⟨BaseContext.init, ⟨["v8.0.20220221\r\n"], []⟩⟩

/-- A fresh context whose device is scripted to answer the `/MODLIST`
query with the comma-form module list of the spec scenario (and of the
repository's own `test_base_controller_modlist_comma`). -/
def modCtx : Ctx := ⟨BaseContext.init, ⟨["CADM2,CADM2,RSM,OEM2,-,EDM\r\n"], []⟩⟩

/-- A context sitting in Servodrive mode with a CADM in slot one and a
device scripted to answer nothing (the read deadline will expire and
framing will fail). -/
def scanCtx : Ctx :=
  ⟨⟨.Servodrive, "", [.Cadm, .Empty, .Empty, .Empty, .Empty, .Empty], []⟩, ⟨[], []⟩⟩

/-- A Basedrive context with a CADM in slot one whose device answers
every request with a device-reported error frame. -/
def stopCtx : Ctx :=
  ⟨⟨.Basedrive, "", [.Cadm, .Empty, .Empty, .Empty, .Empty, .Empty], []⟩,
   ⟨["Error fail\r\n"], []⟩⟩

/-- A fresh Basedrive context with an untouched wire log, for the gating
witnesses. -/
def gateCtx : Ctx := ⟨BaseContext.init, ⟨[], []⟩⟩

/-- A fresh context scripted with two `/STAGES` replies, to observe what
two calls of the accessor do. -/
def stagesCtx : Ctx := ⟨BaseContext.init, ⟨["CLA2601\r\n", "CLA2601\r\n"], []⟩⟩

/-- A fresh context scripted with one `/STAGES` reply, for the
`check_stage` witness. -/
def checkStageCtx : Ctx := ⟨BaseContext.init, ⟨["CLA2601\r\n"], []⟩⟩

/-- The context `checkStageCtx` evolves into after its first
`check_stage` call: cache populated, one `/STAGES` transaction logged. -/
def checkStageCtx1 : Ctx :=
  ⟨⟨.Basedrive, "", [.Empty, .Empty, .Empty, .Empty, .Empty, .Empty], ["CLA2601"]⟩,
   ⟨[], ["/STAGES" ++ TERMINATOR]⟩⟩

/-- A Basedrive context with an RSM in slot one, scripted with one
acknowledgment reply, for the duty-cycle bounds check. -/
def exsCtx : Ctx :=
  ⟨⟨.Basedrive, "", [.Rsm, .Empty, .Empty, .Empty, .Empty, .Empty], []⟩, ⟨["OK\r\n"], []⟩⟩

/-! ### Supporting lemmas -/

theorem stripTerm_append (msg : String) : stripTerm (msg ++ TERMINATOR) = some msg := by
  have hdata : (msg ++ TERMINATOR).data = msg.data ++ ['\r', '\n'] := rfl
  unfold stripTerm stripTermL
  rw [hdata]
  simp

theorem splitOnCharL_ne_nil (c : Char) (l : List Char) : splitOnCharL c l ≠ [] := by
  cases l with
  | nil => simp [splitOnCharL]
  | cons x xs =>
    unfold splitOnCharL
    cases h : splitOnCharL c xs with
    | nil => simp
    | cons h t =>
      by_cases hx : x = c <;> simp [hx]

theorem splitOnChar_ne_nil (c : Char) (s : String) : splitOnChar c s ≠ [] := by
  unfold splitOnChar
  simp [splitOnCharL_ne_nil]

theorem parseFrame_vals_ne_nil (s : String) (v : List String)
    (h : parseFrame s = .ok (.CommaDelimited v) ∨ parseFrame s = .ok (.CrDelimited v)) :
    v ≠ [] := by
  rcases h with h | h <;>
  · unfold parseFrame at h
    cases hst : stripTerm s with
    | none => rw [hst] at h; simp at h
    | some msg =>
      rw [hst] at h
      by_cases he : strStartsWith msg "Error" = true <;> simp [he] at h
      cases hc : countCr msg with
      | zero => rw [hc] at h; simp at h; try { subst h; exact splitOnChar_ne_nil _ _ }
      | succ k => rw [hc] at h; simp at h; try { subst h; exact splitOnChar_ne_nil _ _ }

theorem parseFrame_err_shape (s : String) (e : Error) (h : parseFrame s = .error e) :
    ∃ m, e = .InvalidResponse m := by
  unfold parseFrame at h
  cases hst : stripTerm s with
  | none => rw [hst] at h; simp at h; exact ⟨_, h.symm⟩
  | some msg =>
    rw [hst] at h
    by_cases he : strStartsWith msg "Error" = true <;> simp [he] at h
    cases hc : countCr msg with
    | zero => rw [hc] at h; simp at h
    | succ k => rw [hc] at h; simp at h

theorem checkCommand_err_shape (bc : BaseContext) (cmd : Command) (slot : Option Slot)
    (e : Error) (h : checkCommand bc cmd slot = .error e) : ∃ m, e = .InvalidParams m := by
  unfold checkCommand at h
  by_cases hm : modeAllowed cmd.allowedMode bc.opMode = true
  · rw [if_pos hm] at h
    cases amod : cmd.allowedMod with
    | Any => rw [amod] at h; simp at h
    | Only mods =>
      cases slot with
      | none => rw [amod] at h; simp at h
      | some s =>
        rw [amod] at h
        have h' : (if mods.contains (bc.modules.getD s.idx Module.Empty) = true then
            (Except.ok () : Except Error Unit)
          else Except.error (.InvalidParams ("Unsupported command: '" ++ cmd.disp
            ++ "', for module: '" ++ (bc.modules.getD s.idx Module.Empty).name ++ "'")))
            = Except.error e := h
        cases hcont : mods.contains (bc.modules.getD s.idx .Empty) with
        | true => rw [hcont] at h'; simp at h'
        | false =>
          rw [hcont] at h'
          rw [if_neg (by simp)] at h'
          injection h' with h2
          exact ⟨_, h2.symm⟩
  · rw [if_neg hm] at h
    simp at h
    exact ⟨_, h.symm⟩

theorem transact_fst (ch : Chan) (p : String) :
    (ch.transact p).1 = parseFrame (ch.replies.headD "") := by
  unfold Chan.transact
  cases ch.replies <;> rfl

theorem transact_sent (ch : Chan) (p : String) :
    (ch.transact p).2.sent = ch.sent ++ [p] := by
  unfold Chan.transact
  cases ch.replies <;> rfl

theorem handleCommand_bc (st : Ctx) (cmd : Command) (n : Option Nat) (slot : Option Slot) :
    ((handleCommand st cmd n slot).2).bc = st.bc := by
  cases hc : checkCommand st.bc cmd slot with
  | error e => simp [handleCommand, hc]
  | ok u =>
    cases htr : (st.ch.transact cmd.payload).1 with
    | error e => simp [handleCommand, hc, htr]
    | ok fr =>
      cases fr with
      | Error s => simp [handleCommand, hc, htr]
      | CrDelimited v =>
        cases n with
        | none => simp [handleCommand, hc, htr]
        | some k =>
          by_cases hv : v.length = k <;> simp [handleCommand, hc, htr, hv]
      | CommaDelimited v =>
        cases n with
        | none => simp [handleCommand, hc, htr]
        | some k =>
          by_cases hv : v.length = k <;> simp [handleCommand, hc, htr, hv]

theorem handleCommand_ok_sent (st : Ctx) (cmd : Command) (n : Option Nat)
    (slot : Option Slot) (v : List String) (st1 : Ctx)
    (h : handleCommand st cmd n slot = (.ok v, st1)) :
    st1.ch.sent = st.ch.sent ++ [cmd.payload] := by
  cases hc : checkCommand st.bc cmd slot with
  | error e => simp [handleCommand, hc] at h
  | ok u =>
    cases htr : (st.ch.transact cmd.payload).1 with
    | error e => simp [handleCommand, hc, htr] at h
    | ok fr =>
      cases fr with
      | Error s => simp [handleCommand, hc, htr] at h
      | CrDelimited w =>
        cases n with
        | none =>
          simp [handleCommand, hc, htr] at h
          rw [← h.2, ← transact_sent st.ch cmd.payload]
        | some k =>
          by_cases hv : w.length = k <;> simp [handleCommand, hc, htr, hv] at h
          rw [← h.2, ← transact_sent st.ch cmd.payload]
      | CommaDelimited w =>
        cases n with
        | none =>
          simp [handleCommand, hc, htr] at h
          rw [← h.2, ← transact_sent st.ch cmd.payload]
        | some k =>
          by_cases hv : w.length = k <;> simp [handleCommand, hc, htr, hv] at h
          rw [← h.2, ← transact_sent st.ch cmd.payload]

theorem handleCommand_ok_ne_nil (st : Ctx) (cmd : Command) (slot : Option Slot)
    (v : List String) (st1 : Ctx)
    (h : handleCommand st cmd none slot = (.ok v, st1)) : v ≠ [] := by
  cases hc : checkCommand st.bc cmd slot with
  | error e => simp [handleCommand, hc] at h
  | ok u =>
    cases htr : (st.ch.transact cmd.payload).1 with
    | error e => simp [handleCommand, hc, htr] at h
    | ok fr =>
      cases fr with
      | Error s => simp [handleCommand, hc, htr] at h
      | CrDelimited w =>
        simp [handleCommand, hc, htr] at h
        rw [transact_fst st.ch cmd.payload] at htr
        exact h.1 ▸ parseFrame_vals_ne_nil _ w (.inr htr)
      | CommaDelimited w =>
        simp [handleCommand, hc, htr] at h
        rw [transact_fst st.ch cmd.payload] at htr
        exact h.1 ▸ parseFrame_vals_ne_nil _ w (.inl htr)

theorem handleCommand_no_bound (st : Ctx) (cmd : Command) (n : Option Nat)
    (slot : Option Slot) (m : String) :
    (handleCommand st cmd n slot).1 ≠ .error (.Bound m) := by
  cases hc : checkCommand st.bc cmd slot with
  | error e =>
    rcases checkCommand_err_shape st.bc cmd slot e hc with ⟨m', hm⟩
    simp [handleCommand, hc, hm]
  | ok u =>
    cases htr : (st.ch.transact cmd.payload).1 with
    | error e =>
      rw [transact_fst st.ch cmd.payload] at htr
      rcases parseFrame_err_shape _ e htr with ⟨m', hm⟩
      rw [← transact_fst st.ch cmd.payload] at htr
      simp [handleCommand, hc, htr, hm]
    | ok fr =>
      cases fr with
      | Error s => simp [handleCommand, hc, htr]
      | CrDelimited w =>
        cases n with
        | none => simp [handleCommand, hc, htr]
        | some k =>
          by_cases hv : w.length = k <;> simp [handleCommand, hc, htr, hv]
      | CommaDelimited w =>
        cases n with
        | none => simp [handleCommand, hc, htr]
        | some k =>
          by_cases hv : w.length = k <;> simp [handleCommand, hc, htr, hv]

/-! ### Claim theorems -/

/-- C1: for every response buffer ending in the terminator whose
terminator-stripped text does not begin with `"Error"`, the parser
(`Connection::parse_frame`, `src/transport/connection.rs`) returns
`CommaDelimited` of the text split on commas when the stripped text has no
interior carriage return, and `CrDelimited` of the text split on carriage
returns when it has one or more; in particular `"v1,v2,v3\r\n"` parses to
`CommaDelimited(["v1","v2","v3"])` and `"v1\rv2\rv3\r\n"` to
`CrDelimited(["v1","v2","v3"])`. -/
theorem parse_frame_disambiguation :
    parseFrame "v1,v2,v3\r\n" = .ok (.CommaDelimited ["v1", "v2", "v3"])
    ∧ parseFrame "v1\rv2\rv3\r\n" = .ok (.CrDelimited ["v1", "v2", "v3"])
    ∧ ∀ msg : String, strStartsWith msg "Error" = false →
        (countCr msg = 0 →
          parseFrame (msg ++ TERMINATOR) = .ok (.CommaDelimited (splitOnChar ',' msg)))
        ∧ (0 < countCr msg →
          parseFrame (msg ++ TERMINATOR) = .ok (.CrDelimited (splitOnChar '\r' msg))) := by
  refine ⟨by decide, by decide, ?_⟩
  intro msg hErr
  constructor
  · intro h0
    unfold parseFrame
    rw [stripTerm_append]
    simp only [hErr, Bool.false_eq_true, if_false]
    rw [h0]
  · intro h1
    obtain ⟨k, hk⟩ : ∃ k, countCr msg = k + 1 := ⟨countCr msg - 1, by omega⟩
    unfold parseFrame
    rw [stripTerm_append]
    simp only [hErr, Bool.false_eq_true, if_false]
    rw [hk]

/-- Witness for C1: the general disambiguation applied at the concrete
stripped texts `"ab,cd"` (no interior CR) and `"ab\rcd"` (one). -/
theorem parse_frame_disambiguation_witness :
    parseFrame ("ab,cd" ++ TERMINATOR) = .ok (.CommaDelimited (splitOnChar ',' "ab,cd"))
    ∧ parseFrame ("ab\rcd" ++ TERMINATOR) = .ok (.CrDelimited (splitOnChar '\r' "ab\rcd")) :=
  ⟨(parse_frame_disambiguation.2.2 "ab,cd" (by decide)).1 (by decide),
   (parse_frame_disambiguation.2.2 "ab\rcd" (by decide)).2 (by decide)⟩

/-- C2: with the device scripted to reply `"v8.0.20220221\r\n"` to
`"/VER\r\n"`, `get_fw_version` returns `Ok("v8.0.20220221")` after one
transaction carrying exactly that query, and a second call returns the
same cached string with the whole context (wire log included) unchanged —
zero further transactions. -/
theorem fw_version_cached :
    (getFwVersion fwCtx).1 = .ok "v8.0.20220221"
    ∧ ((getFwVersion fwCtx).2).ch.sent = ["/VER" ++ TERMINATOR]
    ∧ getFwVersion ((getFwVersion fwCtx).2)
        = (.ok "v8.0.20220221", (getFwVersion fwCtx).2) := by
  refine ⟨by decide, by decide, by decide⟩

/-- C3: in the chunked read loop of `Connection::read_chunks`, a
successful read of `N > 0` bytes appends exactly those bytes to the read
buffer (and continues with the total advanced by `N`); as soon as the
buffer's tail matches the 2-byte terminator the next guard check stops the
loop successfully, at any elapsed time, without waiting for the 500 ms
deadline; and a read of 0 bytes ends the loop as end-of-stream. -/
theorem read_chunks_loop_behavior :
    (∀ (buf : String) (total : Nat) (ev : TimedRead) (rest : List TimedRead),
      strEndsWith buf TERMINATOR = true →
      readChunksGo buf total (ev :: rest) = .ok buf)
    ∧ (∀ (buf : String) (total : Nat) (ev : TimedRead) (data : String)
        (rest : List TimedRead), ev.t < READ_TIMEOUT →
        strEndsWith buf TERMINATOR = false → ev.r = .ok data → data.length ≠ 0 →
        total + data.length ≤ MAX_FRAME_SIZE →
        readChunksGo buf total (ev :: rest)
          = readChunksGo (buf ++ data) (total + data.length) rest)
    ∧ (∀ (buf : String) (total : Nat) (ev : TimedRead) (rest : List TimedRead),
        ev.t < READ_TIMEOUT → strEndsWith buf TERMINATOR = false → ev.r = .ok "" →
        readChunksGo buf total (ev :: rest) = .ok buf) := by
  refine ⟨?_, ?_, ?_⟩
  · intro buf total ev rest hterm
    unfold readChunksGo
    rw [if_neg (by simp [hterm])]
  · intro buf total ev data rest ht hterm hr hlen hmax
    conv_lhs => unfold readChunksGo
    rw [if_pos ⟨ht, by simp [hterm]⟩, hr]
    change (if data.length = 0 then _ else
      if total + data.length > MAX_FRAME_SIZE then _ else _) = _
    rw [if_neg hlen, if_neg (by omega)]
  · intro buf total ev rest ht hterm hr
    unfold readChunksGo
    rw [if_pos ⟨ht, by simp [hterm]⟩, hr]
    change (if ("" : String).length = 0 then _ else _) = _
    rw [if_pos (by decide)]

/-- Witness for C3: the three loop behaviours at concrete states — a
buffer already ending in the terminator stops at elapsed time 0, a 2-byte
read appends exactly those bytes, and an `Ok(0)` read stops. -/
theorem read_chunks_loop_behavior_witness :
    readChunksGo "ok\r\n" 4 [⟨0, .ok "zz"⟩] = .ok "ok\r\n"
    ∧ readChunksGo "a" 1 [⟨0, .ok "bc"⟩] = readChunksGo ("a" ++ "bc") (1 + ("bc" : String).length) []
    ∧ readChunksGo "a" 1 [⟨0, .ok ""⟩] = .ok "a" :=
  ⟨read_chunks_loop_behavior.1 "ok\r\n" 4 ⟨0, .ok "zz"⟩ [] (by decide),
   read_chunks_loop_behavior.2.1 "a" 1 ⟨0, .ok "bc"⟩ "bc" [] (by decide) (by decide) rfl
     (by decide) (by decide),
   read_chunks_loop_behavior.2.2 "a" 1 ⟨0, .ok ""⟩ [] (by decide) (by decide) rfl⟩

/-- C4 (evaluation at the claimed scenario): the known module names parse,
but `Module::from_str` as written in `src/config.rs` rejects `"-"` with
`InvalidResponse("Unknown module: -")`, so `get_module_list` on the reply
`"CADM2,CADM2,RSM,OEM2,-,EDM\r\n"` returns that error instead of the
`Ok` with a slot-table update that the claim (and the repository's own
test) expects; the six-slot table stays all-`Empty`. -/
theorem module_list_dash_rejected :
    Module.fromStr "CADM2" = .ok .Cadm ∧ Module.fromStr "RSM" = .ok .Rsm
    ∧ Module.fromStr "OEM2" = .ok .Oem ∧ Module.fromStr "EDM" = .ok .Edm
    ∧ Module.fromStr "-" = .error (.InvalidResponse "Unknown module: -")
    ∧ getModuleList modCtx = (.error (.InvalidResponse "Unknown module: -"),
        ⟨BaseContext.init, ⟨[], ["/MODLIST" ++ TERMINATOR]⟩⟩) := by
  refine ⟨by decide, by decide, by decide, by decide, by decide, by decide⟩

/-- C8: when a successful read pushes the running byte total past the
4096-byte maximum frame size before a terminator has appeared, the read
loop aborts with `BufOverflow` whose fields are the capacity
(`MAX_FRAME_SIZE` = 4096) and the offending byte total; and every
transaction's read starts from an empty accumulated buffer
(`self.read_buf.clear()` runs at the top of `read_chunks`), so the next
transaction starts clean. -/
theorem read_chunks_overflow_guard :
    (∀ (buf : String) (total : Nat) (ev : TimedRead) (data : String)
       (rest : List TimedRead), ev.t < READ_TIMEOUT →
       strEndsWith buf TERMINATOR = false → ev.r = .ok data → data.length ≠ 0 →
       MAX_FRAME_SIZE < total + data.length →
       readChunksGo buf total (ev :: rest)
         = .error (.BufOverflow MAX_FRAME_SIZE (total + data.length)))
    ∧ MAX_FRAME_SIZE = 4096
    ∧ (∀ events, readChunks events = readChunksGo "" 0 events) := by
  refine ⟨?_, rfl, fun _ => rfl⟩
  intro buf total ev data rest ht hterm hr hlen hmax
  conv_lhs => unfold readChunksGo
  rw [if_pos ⟨ht, by simp [hterm]⟩, hr]
  change (if data.length = 0 then _ else
    if total + data.length > MAX_FRAME_SIZE then _ else _) = _
  rw [if_neg hlen, if_pos hmax]

/-- Witness for C8: a 7-byte read arriving with 4090 bytes already
accumulated overflows to 4097 and aborts with `BufOverflow 4096 4097`. -/
theorem read_chunks_overflow_guard_witness :
    readChunksGo "x" 4090 [⟨0, .ok "abcdefg"⟩] = .error (.BufOverflow 4096 4097) :=
  read_chunks_overflow_guard.1 "x" 4090 ⟨0, .ok "abcdefg"⟩ "abcdefg" [] (by decide)
    (by decide) rfl (by decide) (by decide)

/-- Counterexample to C5 as stated: `enable_scan_mode` writes
`self.op_mode = Basedrive` before dispatching, so from Servodrive a call
whose exchange fails still leaves the recorded mode changed to Basedrive
(which is also what lets its Basedrive-only mode scope pass the check). -/
theorem enable_scan_mode_optimistic_mutation :
    scanCtx.bc.opMode = .Servodrive
    ∧ (enableScanMode scanCtx .One 512).1 = .error (.InvalidResponse "Terminator not found")
    ∧ ((enableScanMode scanCtx .One 512).2).bc.opMode = .Basedrive := by
  refine ⟨by decide, by decide, by decide⟩

/-- C5 (amended): the mode-transitioning commands that set the mode after
the `?` on `handle_command` — `stop_stage`, `disable_servodrive`,
`servodrive_em_stop` — leave the recorded operating mode unchanged
whenever the call returns an error; `enable_scan_mode` instead records
Basedrive before dispatch, so after any call that passes its bounds check
the recorded mode is Basedrive whether or not the exchange succeeded
(`enable_servodrive` and `enable_ext_input_mode` pre-set their modes the
same way in the source). -/
theorem mode_transitions_after_success :
    (∀ (st : Ctx) (slot : Slot) (e : Error) (st' : Ctx),
      stopStage st slot = (.error e, st') → st'.bc.opMode = st.bc.opMode)
    ∧ (∀ (st : Ctx) (e : Error) (st' : Ctx),
      disableServodrive st = (.error e, st') → st'.bc.opMode = st.bc.opMode)
    ∧ (∀ (st : Ctx) (e : Error) (st' : Ctx),
      servodriveEmStop st = (.error e, st') → st'.bc.opMode = st.bc.opMode)
    ∧ (∀ (st : Ctx) (slot : Slot) (level : Nat), level ≤ SCANNER_LEVEL_BOUNDS_hi →
      ((enableScanMode st slot level).2).bc.opMode = .Basedrive) := by
  refine ⟨?_, ?_, ?_, ?_⟩
  · intro st slot e st' h
    simp only [stopStage] at h
    cases hh : handleCommand st (Command.new (.Only [.Cadm])
        (.Only [.Basedrive, .Flexdrive]) ("STP " ++ slot.disp)) (some 1) (some slot) with
    | mk r st1 =>
      have hbc := handleCommand_bc st (Command.new (.Only [.Cadm])
        (.Only [.Basedrive, .Flexdrive]) ("STP " ++ slot.disp)) (some 1) (some slot)
      rw [hh] at h hbc
      cases r with
      | error e' =>
        injection h with h1 h2
        subst h2
        exact congrArg BaseContext.opMode hbc
      | ok v => injection h with h1 h2; simp at h1
  · intro st e st' h
    simp only [disableServodrive] at h
    cases hh : handleCommand st (Command.new .Any (.Only [.Servodrive]) "FBXT")
        (some 1) none with
    | mk r st1 =>
      have hbc := handleCommand_bc st (Command.new .Any (.Only [.Servodrive]) "FBXT")
        (some 1) none
      rw [hh] at h hbc
      cases r with
      | error e' =>
        injection h with h1 h2
        subst h2
        exact congrArg BaseContext.opMode hbc
      | ok v => injection h with h1 h2; simp at h1
  · intro st e st' h
    simp only [servodriveEmStop] at h
    cases hh : handleCommand st (Command.new .Any (.Only [.Servodrive]) "FBES")
        (some 1) none with
    | mk r st1 =>
      have hbc := handleCommand_bc st (Command.new .Any (.Only [.Servodrive]) "FBES")
        (some 1) none
      rw [hh] at h hbc
      cases r with
      | error e' =>
        injection h with h1 h2
        subst h2
        exact congrArg BaseContext.opMode hbc
      | ok v => injection h with h1 h2; simp at h1
  · intro st slot level hlev
    simp only [enableScanMode]
    rw [if_neg (not_not_intro hlev)]
    cases hh : handleCommand ⟨{ st.bc with opMode := .Basedrive }, st.ch⟩
        (Command.new (.Only [.Cadm]) (.Only [.Basedrive])
          ("SDC " ++ slot.disp ++ " " ++ toString level)) (some 1) (some slot) with
    | mk r st1 =>
      have hbc := handleCommand_bc ⟨{ st.bc with opMode := .Basedrive }, st.ch⟩
        (Command.new (.Only [.Cadm]) (.Only [.Basedrive])
          ("SDC " ++ slot.disp ++ " " ++ toString level)) (some 1) (some slot)
      rw [hh] at hbc
      cases r with
      | error e' =>
        simp [hh]
        rw [show st1.bc = ({ st.bc with opMode := .Basedrive } : BaseContext) from hbc]
      | ok v =>
        simp [hh]
        rw [show st1.bc = ({ st.bc with opMode := .Basedrive } : BaseContext) from hbc]

/-- Witness for the amended C5: a `stop_stage` call that fails with the
device's error leaves the recorded mode at Basedrive, and a bounds-passing
`enable_scan_mode` call records Basedrive. -/
theorem mode_transitions_after_success_witness :
    ((⟨stopCtx.bc, ⟨[], ["STP 1" ++ TERMINATOR]⟩⟩ : Ctx)).bc.opMode = stopCtx.bc.opMode
    ∧ ((enableScanMode scanCtx .One 512).2).bc.opMode = .Basedrive :=
  ⟨mode_transitions_after_success.1 stopCtx .One (.DeviceError "Error fail")
     ⟨stopCtx.bc, ⟨[], ["STP 1" ++ TERMINATOR]⟩⟩ (by decide),
   mode_transitions_after_success.2.2.2 scanCtx .One 512 (by decide)⟩

/-- C6: when a command's restrictive mode scope excludes the current
operating mode, and when a slot-scoped command's restrictive module scope
excludes the module recorded at the supplied slot, `handle_command`
returns the corresponding `InvalidParams` error and hands back the state
completely unchanged — in particular the wire log is untouched, so no
transaction happened. -/
theorem handle_command_gating (st : Ctx) (cmd : Command) (n : Option Nat)
    (slot : Option Slot) :
    (∀ modes, cmd.allowedMode = .Only modes → modes.contains st.bc.opMode = false →
      handleCommand st cmd n slot = (.error (.InvalidParams ("Unsupported command: '"
        ++ cmd.disp ++ "', in mode: '" ++ st.bc.opMode.name ++ "'")), st))
    ∧ (∀ mods s, cmd.allowedMod = .Only mods → slot = some s →
        modeAllowed cmd.allowedMode st.bc.opMode = true →
        mods.contains (st.bc.modules.getD s.idx .Empty) = false →
        handleCommand st cmd n slot = (.error (.InvalidParams ("Unsupported command: '"
          ++ cmd.disp ++ "', for module: '" ++ (st.bc.modules.getD s.idx .Empty).name
          ++ "'")), st)) := by
  obtain ⟨amod, amode, payload⟩ := cmd
  constructor
  · intro modes hmode hmem
    have hmode' : amode = .Only modes := hmode
    subst hmode'
    have hcc : checkCommand st.bc ⟨amod, .Only modes, payload⟩ slot
        = .error (.InvalidParams ("Unsupported command: '"
          ++ Command.disp ⟨amod, .Only modes, payload⟩ ++ "', in mode: '"
          ++ st.bc.opMode.name ++ "'")) := by
      have hmem' : st.bc.opMode ∉ modes := by simpa using hmem
      unfold checkCommand
      rw [if_neg (by simp [modeAllowed, hmem'])]
    simp [handleCommand, hcc]
  · intro mods s hmod hslot hmode hmem
    have hmod' : amod = .Only mods := hmod
    subst hmod'
    subst hslot
    have hcc : checkCommand st.bc ⟨.Only mods, amode, payload⟩ (some s)
        = .error (.InvalidParams ("Unsupported command: '"
          ++ Command.disp ⟨.Only mods, amode, payload⟩ ++ "', for module: '"
          ++ (st.bc.modules.getD s.idx .Empty).name ++ "'")) := by
      have hmem' : st.bc.modules[s.idx]?.getD Module.Empty ∉ mods := by simpa using hmem
      unfold checkCommand
      rw [if_pos hmode]
      change (if mods.contains (st.bc.modules.getD s.idx Module.Empty) = true
          then _ else _) = _
      rw [if_neg (by simp [hmem'])]
    simp [handleCommand, hcc]

/-- Witness for C6: a Servodrive-only command is refused in Basedrive, and
a CADM-only command is refused against an empty slot; both leave the
context (wire log included) unchanged. -/
theorem handle_command_gating_witness :
    handleCommand gateCtx (Command.new .Any (.Only [.Servodrive]) "FBXT") (some 1) none
      = (.error (.InvalidParams "Unsupported command: 'FBXT', in mode: 'Basedrive'"), gateCtx)
    ∧ handleCommand gateCtx (Command.new (.Only [.Cadm]) .Any "STP 1") (some 1) (some .One)
      = (.error (.InvalidParams "Unsupported command: 'STP', for module: 'Empty'"), gateCtx) :=
  ⟨(handle_command_gating gateCtx (Command.new .Any (.Only [.Servodrive]) "FBXT")
      (some 1) none).1 [.Servodrive] rfl (by decide),
   (handle_command_gating gateCtx (Command.new (.Only [.Cadm]) .Any "STP 1")
      (some 1) (some .One)).2 [.Cadm] .One rfl rfl (by decide) (by decide)⟩

/-- Counterexample to C7 as stated: `get_supported_stages` consults no
cache — the first call leaves the supported-stage cache empty, and two
back-to-back calls put two `/STAGES` transactions on the wire, not one. -/
theorem get_supported_stages_uncached :
    (getSupportedStages stagesCtx).1 = .ok ["CLA2601"]
    ∧ ((getSupportedStages stagesCtx).2).bc.supportedStages = []
    ∧ ((getSupportedStages (getSupportedStages stagesCtx).2).2).ch.sent
        = ["/STAGES" ++ TERMINATOR, "/STAGES" ++ TERMINATOR] := by
  refine ⟨by decide, by decide, by decide⟩

/-- C7 (amended): the populate-once caching lives in `check_stage`, the
stage-validation path: with a non-empty cache `check_stage` answers from
the cache with the state untouched (zero transactions); with an empty
cache a successful `check_stage` issues exactly one `/STAGES` transaction,
populates the cache non-emptily, and a second `check_stage` then answers
from the cache with the state unchanged.  `get_supported_stages` itself
transacts on every call. -/
theorem check_stage_cache (st : Ctx) (stage stage2 : String) :
    (st.bc.supportedStages ≠ [] →
      checkStage st stage
        = (.ok (st.bc.supportedStages.any (fun s => s == stage)), st))
    ∧ (∀ b st1, st.bc.supportedStages = [] → checkStage st stage = (.ok b, st1) →
        st1.bc.supportedStages ≠ []
        ∧ st1.ch.sent = st.ch.sent ++ ["/STAGES" ++ TERMINATOR]
        ∧ checkStage st1 stage2
            = (.ok (st1.bc.supportedStages.any (fun s => s == stage2)), st1)) := by
  constructor
  · intro hne
    have hemp : st.bc.supportedStages.isEmpty = false := by
      cases hl : st.bc.supportedStages with
      | nil => exact absurd hl hne
      | cons a t => simp [hl]
    simp only [checkStage, hemp]
    simp
  · intro b st1 hemp hok
    have hempB : st.bc.supportedStages.isEmpty = true := by simp [hemp]
    simp only [checkStage] at hok
    rw [if_pos hempB] at hok
    cases hgs : getSupportedStages st with
    | mk r st' =>
      rw [hgs] at hok
      cases r with
      | error e => injection hok with h1 h2; simp at h1
      | ok v =>
        injection hok with h1 h2
        subst h2
        simp only [getSupportedStages] at hgs
        have hvne : v ≠ [] :=
          handleCommand_ok_ne_nil st (Command.new .Any .Any "/STAGES") none v st' hgs
        have hsent : st'.ch.sent = st.ch.sent
            ++ [(Command.new ModuleScope.Any ModeScope.Any "/STAGES").payload] :=
          handleCommand_ok_sent st (Command.new .Any .Any "/STAGES") none none v st' hgs
        refine ⟨hvne, hsent, ?_⟩
        have hempv : v.isEmpty = false := by
          cases hv : v with
          | nil => exact absurd hv hvne
          | cons a t => simp [hv]
        simp only [checkStage, hempv]
        simp

/-- Witness for the amended C7: the first `check_stage` on an empty cache
populates it from one `/STAGES` transaction, and a second `check_stage`
answers from the cache without touching the state. -/
theorem check_stage_cache_witness :
    checkStageCtx1.bc.supportedStages ≠ []
    ∧ checkStageCtx1.ch.sent = checkStageCtx.ch.sent ++ ["/STAGES" ++ TERMINATOR]
    ∧ checkStage checkStageCtx1 "XYZ"
        = (.ok (checkStageCtx1.bc.supportedStages.any (fun s => s == "XYZ")),
           checkStageCtx1) :=
  (check_stage_cache checkStageCtx "CLA2601" "XYZ").2 true checkStageCtx1 rfl (by decide)

/-- C9: `set_excitation_ds` returns a `Bound` error naming the legal
range (`0, 10-100`) and the offending value, with the whole context (wire
log included) unchanged, exactly when the duty cycle is neither 0 nor in
`10..=100`; for a legal duty cycle no `Bound` error can come out of the
call. -/
theorem set_excitation_ds_bounds (st : Ctx) (slot : Slot) (duty : Nat) :
    (¬ (duty = 0 ∨ (10 ≤ duty ∧ duty ≤ 100)) →
      setExcitationDs st slot duty
        = (.error (.Bound ("Duty cycle out of range: 0, 10-100. Got "
            ++ toString duty)), st))
    ∧ ((duty = 0 ∨ (10 ≤ duty ∧ duty ≤ 100)) →
      ∀ m, (setExcitationDs st slot duty).1 ≠ .error (.Bound m)) := by
  constructor
  · intro hbad
    unfold setExcitationDs
    rw [if_pos hbad]
  · intro hgood m
    unfold setExcitationDs
    rw [if_neg (not_not_intro hgood)]
    have hnb := handleCommand_no_bound st (Command.new (.Only [.Rsm]) (.Only [.Basedrive])
      ("EXS " ++ slot.disp ++ " " ++ toString duty)) (some 1) (some slot) m
    cases hh : handleCommand st (Command.new (.Only [.Rsm]) (.Only [.Basedrive])
        ("EXS " ++ slot.disp ++ " " ++ toString duty)) (some 1) (some slot) with
    | mk r st' =>
      rw [hh] at hnb
      cases r with
      | error e => simpa [hh] using hnb
      | ok v => simp [hh]

/-- Witness for C9: duty 5 (in the forbidden gap) is rejected with the
exact `Bound` message and an untouched context; duty 50 produces no
`Bound` error. -/
theorem set_excitation_ds_bounds_witness :
    setExcitationDs exsCtx .One 5
      = (.error (.Bound "Duty cycle out of range: 0, 10-100. Got 5"), exsCtx)
    ∧ (setExcitationDs exsCtx .One 50).1 ≠ .error (.Bound "x") :=
  ⟨(set_excitation_ds_bounds exsCtx .One 5).1 (by decide),
   (set_excitation_ds_bounds exsCtx .One 50).2 (by decide) "x"⟩

/-- C10: whenever `get_module_list` returns an error — in particular when
any entry of a six-value response fails `Module::from_str` — the six-slot
module table is left exactly as it was: the whole response is parsed
(`collect` + `?`) before any slot is overwritten, and the parse failure
is returned as the call's error. -/
theorem get_module_list_atomic (st : Ctx) :
    (∀ e, (getModuleList st).1 = .error e →
      ((getModuleList st).2).bc.modules = st.bc.modules)
    ∧ (∀ v st1 e,
        handleCommand st (Command.new .Any .Any "/MODLIST") (some 6) none = (.ok v, st1) →
        collectModules v = .error e → getModuleList st = (.error e, st1)) := by
  have hbc := handleCommand_bc st (Command.new .Any .Any "/MODLIST") (some 6) none
  constructor
  · intro e herr
    simp only [getModuleList] at herr ⊢
    cases hh : handleCommand st (Command.new .Any .Any "/MODLIST") (some 6) none with
    | mk r st1 =>
      rw [hh] at hbc herr
      cases r with
      | error e' =>
        simp
        exact congrArg BaseContext.modules hbc
      | ok v =>
        cases hcm : collectModules v with
        | error e' =>
          simp [hcm]
          exact congrArg BaseContext.modules hbc
        | ok mods => simp [hcm] at herr
  · intro v st1 e hok hcm
    simp only [getModuleList]
    rw [hok]
    simp [hcm]

/-- Witness for C10: on the scripted `"CADM2,CADM2,RSM,OEM2,-,EDM"` reply
whose `"-"` entry fails to parse, the module table is unchanged. -/
theorem get_module_list_atomic_witness :
    ((getModuleList modCtx).2).bc.modules = modCtx.bc.modules :=
  (get_module_list_atomic modCtx).1 (.InvalidResponse "Unknown module: -") (by decide)

end Jpe
